import Mathlib

/-!
Verification development for the Yamaha XMV amplifier client
(`custom_components/xmv_controller`).

The Python source is shallowly embedded: pure fragments become Lean
functions, stateful methods become explicit state-passing functions, and
Python `float` arithmetic is modelled with `ℚ` (every concrete input used
below is a dyadic rational small enough that the IEEE-754 double
computation of the source is exact on it, so the model agrees with the
source at those points).  Python exceptions are modelled with `Option`
(a caught `IndexError`/`ValueError` is a `none`) or with an explicit
boolean flag where an exception escaping a loop matters.
-/

namespace XMV

/-- `const.py`: special value from the amplifier that indicates "Muted". -/
def AMP_MUTE_VALUE : Int := -13801

/-- `const.py`: initial reconnect delay, seconds. -/
def RECONNECT_DELAY_INITIAL : Nat := 5

/-- `const.py`: maximum reconnect delay, seconds. -/
def RECONNECT_DELAY_MAX : Nat := 60

/-- `api.py`: expected handshake reply line. -/
def HANDSHAKE_RESPONSE : String := "OK devstatus runmode \"normal\""

/-- `api.py`: protocol path id for the power control surface. -/
def PATH_ID_POWER : String := "60003"

/-- `api.py`: protocol path id for the volume control surface. -/
def PATH_ID_VOLUME : String := "60002"

/-!  ### Python string primitives

The parser uses `str.split()` (split on runs of whitespace, dropping
empty fields), `str.split('/')` (split on a separator, keeping empty
fields) and `int(...)` (optional sign followed by a non-empty digit
string; anything else raises `ValueError`).  They are implemented here by
structural recursion on the character list so that the kernel can
evaluate them.
-/

/-- Helper for `pySplit`: accumulates the current field (reversed). -/
def splitWsAux : List Char → List Char → List String
  | [], acc => if acc.isEmpty then [] else [String.mk acc.reverse]
  | c :: cs, acc =>
    if c.isWhitespace then
      if acc.isEmpty then splitWsAux cs [] else String.mk acc.reverse :: splitWsAux cs []
    else splitWsAux cs (c :: acc)

/-- Python `str.split()` with no argument: split on runs of whitespace,
leading/trailing whitespace ignored, no empty fields. -/
def pySplit (s : String) : List String := splitWsAux s.toList []

/-- Helper for `pySplitOn`: accumulates the current field (reversed). -/
def splitSepAux (sep : Char) : List Char → List Char → List String
  | [], acc => [String.mk acc.reverse]
  | c :: cs, acc =>
    if c = sep then String.mk acc.reverse :: splitSepAux sep cs []
    else splitSepAux sep cs (c :: acc)

/-- Python `str.split(sep)` for a one-character separator: empty fields
are kept, and the empty string yields `[""]`. -/
def pySplitOn (sep : Char) (s : String) : List String := splitSepAux sep s.toList []

/-- Digit-string parser: `none` unless the list is a non-empty run of
ASCII digits. -/
def parseDigits : List Char → Option Nat
  | [] => none
  | cs => cs.foldlM (fun acc c => if c.isDigit then some (acc * 10 + (c.toNat - 48)) else none) 0

/-- Python `int(s)` on a whitespace-free field: optional sign then a
non-empty digit run, otherwise `ValueError` (`none`).  (Exotic accepted
forms such as digit-group underscores are not modelled; no claim
involves them.) -/
def pyParseInt (s : String) : Option Int :=
  match s.toList with
  | '-' :: rest => (parseDigits rest).map (fun n => -(n : Int))
  | '+' :: rest => (parseDigits rest).map (fun n => (n : Int))
  | cs => (parseDigits cs).map (fun n => (n : Int))

/-- Python `str.strip()`: remove leading and trailing whitespace. -/
def pyStrip (s : String) : String :=
  String.mk (((s.toList.dropWhile Char.isWhitespace).reverse.dropWhile Char.isWhitespace).reverse)

/-- Python `int(q)` on a float modelled as `ℚ`: truncation toward zero. -/
def pyInt (q : ℚ) : Int := if 0 ≤ q then ⌊q⌋ else ⌈q⌉

/-!  ### Data model -/

/-- A partial state patch delivered to subscriber callbacks
(`update_data` dictionaries of `api.py`); absent keys are `none`. -/
structure Patch where
  available : Option Bool := none
  power : Option Bool := none
  mute : Option Bool := none
  volume : Option ℚ := none
deriving Repr, DecidableEq

/-- A registered subscriber callback, identified by `id`; `raises p`
models whether invoking it on patch `p` raises an exception. -/
structure Callback where
  id : Nat
  raises : Patch → Bool

/-- The mutable state of `AmplifierClient` that the verified operations
touch: dB bounds (already scaled by 100 in `__init__`), the ordered
callback registry (a Python dict: insertion-ordered, unique keys), the
connected flag and whether a transport writer is held. -/
structure ClientState where
  min_db_100 : Int
  max_db_100 : Int
  callbacks : List (String × List Callback)
  is_connected : Bool
  has_writer : Bool

/-- Outbound protocol commands.  The source builds f-strings from a
fixed template parameterized by path id, channel id and value;
`renderCommand` below reproduces the exact strings. -/
inductive Command
  | getCmd (path_id : String) (channel_id : String)
  | setCmd (path_id : String) (channel_id : String) (value : Int)
deriving Repr, DecidableEq

/-- Wire format of a command, exactly the f-string templates of
`api.py` (`async_query_channel_state`, `async_set_power`,
`async_set_mute`, `async_set_volume`). -/
def renderCommand : Command → String
  | .getCmd pid ch => "get MTX:mem_512/" ++ pid ++ "/0/" ++ ch ++ "/0/0/0 0 0\n"
  | .setCmd pid ch v => "set MTX:mem_512/" ++ pid ++ "/0/" ++ ch ++ "/0/0/0 0 0 " ++ toString v ++ "\n"

/-!  ### Volume conversions -/

/-- Parser-side volume conversion, `api.py` lines 260–262:
`db_range = max - min`; `ha_volume = (value - min)/db_range if db_range != 0
else 1.0`; clamped with `max(0.0, min(1.0, ha_volume))`. -/
def ha_volume_of_value (min_db_100 max_db_100 value : Int) : ℚ :=
  let db_range : Int := max_db_100 - min_db_100
  let hv : ℚ := if db_range ≠ 0 then ((value : ℚ) - (min_db_100 : ℚ)) / ((db_range : Int) : ℚ) else 1
  max 0 (min 1 hv)

/-- Sender-side volume conversion, `api.py` line 309:
`amp_volume = int(min_db_100 + (ha_volume * db_range))` — Python `int()`
truncates toward zero. -/
def set_volume_amp_value (min_db_100 max_db_100 : Int) (ha_volume : ℚ) : Int :=
  let db_range : Int := max_db_100 - min_db_100
  pyInt ((min_db_100 : ℚ) + ha_volume * ((db_range : Int) : ℚ))

/-!  ### Message parsing (`_process_message`, `api.py` lines 240–270)

The method is wrapped in `try ... except (IndexError, ValueError)`; every
failing list index or failing `int(...)` therefore yields "no update",
modelled as `none`.  The steps are in source order: `parts =
message.split()`, `address_path = parts[2].split('/')`, `command_id =
address_path[1]`, `channel_id = address_path[3]`, the registered-channel
early return, `value = int(parts[5])`, then the dispatch on
`command_id`. -/
def parsed_update (st : ClientState) (message : String) : Option (String × Patch) :=
  let parts := pySplit message
  match parts.get? 2 with
  | none => none
  | some addressToken =>
    let address_path := pySplitOn '/' addressToken
    match address_path.get? 1, address_path.get? 3 with
    | some command_id, some channel_id =>
      if (st.callbacks.lookup channel_id).isNone then none
      else
        match parts.get? 5 with
        | none => none
        | some field5 =>
          match pyParseInt field5 with
          | none => none
          | some value =>
            if command_id = PATH_ID_POWER then
              some (channel_id, { power := some (value == 1) })
            else if command_id = PATH_ID_VOLUME then
              if value = AMP_MUTE_VALUE then
                some (channel_id, { mute := some true })
              else
                some (channel_id,
                  { mute := some false,
                    volume := some (ha_volume_of_value st.min_db_100 st.max_db_100 value) })
            else none
    | _, _ => none

/-!  ### Callback fan-out

Both fan-out sites — `_process_message` lines 266–267 and
`_notify_availability` lines 175–177 — are a plain
`for callback in list: callback(patch)` loop with no per-callback
exception isolation: an exception raised by one callback leaves the loop
(in `_process_message` an `IndexError`/`ValueError` is then swallowed by
the enclosing handler; in `_notify_availability` it propagates), so the
remaining callbacks of the list are not invoked.  `run_callbacks`
returns the `(callback id, patch)` invocation events in order plus a
flag telling whether an exception escaped the loop. -/
def run_callbacks (cbs : List Callback) (p : Patch) : List (Nat × Patch) × Bool :=
  match cbs with
  | [] => ([], false)
  | cb :: rest =>
    if cb.raises p then ([(cb.id, p)], true)
    else
      let (evs, e) := run_callbacks rest p
      ((cb.id, p) :: evs, e)

/-- `_notify_availability` (`api.py` lines 172–177): fan a
`{"available": available}` patch out to every callback of every
registered channel; no exception handling, so a raising callback aborts
the whole notification. -/
def notify_availability (callbacks : List (String × List Callback)) (available : Bool) :
    List (Nat × Patch) × Bool :=
  match callbacks with
  | [] => ([], false)
  | (_, cbs) :: rest =>
    let (evs, e) := run_callbacks cbs { available := some available }
    if e then (evs, true)
    else
      let (evs2, e2) := notify_availability rest available
      (evs ++ evs2, e2)

/-- `_process_message` end to end: parse, then fan the patch out to the
channel's callbacks (lines 265–267).  Returns the invocation events and
whether a callback exception escaped the loop. -/
def process_message (st : ClientState) (message : String) : List (Nat × Patch) × Bool :=
  match parsed_update st message with
  | none => ([], false)
  | some (ch, p) =>
    match st.callbacks.lookup ch with
    | none => ([], false)
    | some cbs => run_callbacks cbs p

/-!  ### Command sending -/

/-- `_send_command` (`api.py` lines 272–285): a no-op when the session
is not connected or no writer is held; otherwise the command is written
under the send lock.  (The write-failure branch of lines 283–285, which
closes the session on a transport error, concerns an external fault
event and is outside this embedding; every claim below is about the
guard or the successful write.)  Returns the updated state and the list
of lines written. -/
def send_command (st : ClientState) (command : Command) : ClientState × List Command :=
  if st.is_connected && st.has_writer then (st, [command]) else (st, [])

/-- `async_query_channel_state` (`api.py` lines 287–295): one power
`get` and one volume `get` for the channel, each through
`_send_command`. -/
def async_query_channel_state (st : ClientState) (channel_id : String) : List Command :=
  (send_command st (.getCmd PATH_ID_POWER channel_id)).2 ++
  (send_command st (.getCmd PATH_ID_VOLUME channel_id)).2

/-- `async_set_power` (`api.py` lines 297–300). -/
def async_set_power (st : ClientState) (channel_id : String) (is_on : Bool) :
    ClientState × List Command :=
  send_command st (.setCmd PATH_ID_POWER channel_id (if is_on then 1 else 0))

/-- `async_set_mute` (`api.py` lines 302–305): only muting is sent; an
un-mute request is a pure no-op at this layer. -/
def async_set_mute (st : ClientState) (is_muted : Bool) (channel_id : String) :
    ClientState × List Command :=
  if ¬ is_muted then (st, [])
  else send_command st (.setCmd PATH_ID_VOLUME channel_id AMP_MUTE_VALUE)

/-- `async_set_volume` (`api.py` lines 307–311). -/
def async_set_volume (st : ClientState) (channel_id : String) (ha_volume : ℚ) :
    ClientState × List Command :=
  send_command st
    (.setCmd PATH_ID_VOLUME channel_id (set_volume_amp_value st.min_db_100 st.max_db_100 ha_volume))

/-!  ### Handshake (`_connect_and_handshake`, `api.py` lines 139–170)

Models the phase after `open_connection` succeeded (so a writer is
held): the stripped reply line is compared verbatim with
`HANDSHAKE_RESPONSE`; on success the connected flag is set, availability
`true` is fanned out, and each registered channel is re-queried; on
failure the connection is closed. -/

/-- `_close_connection` (`api.py` lines 75–92): drop the transport and,
if the session was connected, clear the flag and notify
availability `false`. -/
def close_connection (st : ClientState) : ClientState × List (Nat × Patch) :=
  if st.is_connected then
    ({ st with has_writer := false, is_connected := false },
     (notify_availability st.callbacks false).1)
  else ({ st with has_writer := false }, [])

/-- Success path effects of `_connect_and_handshake`: new state, the
availability notifications, and the commands written. -/
def connect_handshake (st : ClientState) (response : String) :
    ClientState × List (Nat × Patch) × List Command :=
  if pyStrip response = HANDSHAKE_RESPONSE then
    let stC := { st with is_connected := true }
    (stC, (notify_availability stC.callbacks true).1,
     stC.callbacks.flatMap (fun p => async_query_channel_state stC p.1))
  else
    ((close_connection st).1, (close_connection st).2, [])

/-!  ### Connection manager backoff (`_connection_manager`, `api.py`
lines 95–136, with `RECONNECT_DELAY_INITIAL`/`RECONNECT_DELAY_MAX` from
`const.py`) -/

/-- Backoff-relevant state of the supervising loop. -/
structure ManagerState where
  reconnect_delay : Nat
  is_connected : Bool
deriving Repr, DecidableEq

/-- Outcome of one `_connect_and_handshake` attempt. -/
inductive ConnAttempt
  | failure
  | success
deriving Repr, DecidableEq

/-- One iteration of the reconnect loop.  On failure (`api.py` lines
124–125): sleep the current delay, then
`reconnect_delay = min(reconnect_delay * 2, RECONNECT_DELAY_MAX)`.  On
success (`api.py` line 105): `reconnect_delay = RECONNECT_DELAY_INITIAL`
and the session is connected.  Returns the new state and the observed
sleeps. -/
def manager_step (st : ManagerState) : ConnAttempt → ManagerState × List Nat
  | .success => ({ reconnect_delay := RECONNECT_DELAY_INITIAL, is_connected := true }, [])
  | .failure =>
    ({ st with reconnect_delay := min (st.reconnect_delay * 2) RECONNECT_DELAY_MAX },
     [st.reconnect_delay])

/-- State of the loop before any attempt (`api.py` line 97). -/
def initial_manager_state : ManagerState :=
  { reconnect_delay := RECONNECT_DELAY_INITIAL, is_connected := false }

/-- The manager after `n` consecutive failed attempts from a fresh
start, together with all sleeps observed along the way. -/
def run_failures : Nat → ManagerState × List Nat
  | 0 => (initial_manager_state, [])
  | n + 1 =>
    let (st, sleeps) := run_failures n
    let (stN, s) := manager_step st .failure
    (stN, sleeps ++ s)

/-!  ### Media-player adapter (`media_player.py`) -/

/-- The adapter state touched by mute handling: the last-known volume
level and the saved pre-mute volume (both `None`-able floats). -/
structure PlayerState where
  volume_level : Option ℚ
  pre_mute_volume : Option ℚ
deriving Repr, DecidableEq

/-- Calls the adapter forwards into the client. -/
inductive PlayerAction
  | apiSetMute (muted : Bool)
  | apiSetVolume (v : ℚ)
deriving Repr, DecidableEq

/-- Python `x or default` for an optional float `x`: `None` and `0.0`
are falsy, every other float is truthy. -/
def pyOrFloat (x : Option ℚ) (default : ℚ) : ℚ :=
  match x with
  | none => default
  | some v => if v = 0 then default else v

/-- `async_mute_volume` (`media_player.py` lines 102–108).  Muting saves
the current volume level and forwards the mute; un-muting restores
`self._pre_mute_volume or 0.5` by re-sending it as a volume level. -/
def async_mute_volume (st : PlayerState) (mute : Bool) : PlayerState × List PlayerAction :=
  if mute then
    ({ st with pre_mute_volume := st.volume_level }, [.apiSetMute true])
  else
    (st, [.apiSetVolume (pyOrFloat st.pre_mute_volume (1 / 2))])

/-!  ### Helper lemmas -/

/-- `pyInt` never lands below the floor. -/
lemma floor_le_pyInt (q : ℚ) : ⌊q⌋ ≤ pyInt q := by
  unfold pyInt
  split
  · exact le_rfl
  · exact Int.floor_le_ceil q

/-- `pyInt` never lands above the ceiling. -/
lemma pyInt_le_ceil (q : ℚ) : pyInt q ≤ ⌈q⌉ := by
  unfold pyInt
  split
  · exact Int.floor_le_ceil q
  · exact le_rfl

/-- Truncation toward zero moves a rational by less than one unit. -/
lemma abs_pyInt_sub_le (q : ℚ) : |(pyInt q : ℚ) - q| ≤ 1 := by
  have h1 : ((⌊q⌋ : Int) : ℚ) ≤ ((pyInt q : Int) : ℚ) := by exact_mod_cast floor_le_pyInt q
  have h2 : ((pyInt q : Int) : ℚ) ≤ ((⌈q⌉ : Int) : ℚ) := by exact_mod_cast pyInt_le_ceil q
  have h3 : q - 1 < ((⌊q⌋ : Int) : ℚ) := Int.sub_one_lt_floor q
  have h4 : ((⌈q⌉ : Int) : ℚ) < q + 1 := Int.ceil_lt_add_one q
  rw [abs_le]
  constructor <;> linarith

/-- When no callback of the list raises on `p`, the loop calls every
callback once, in list order, and no exception escapes. -/
lemma run_callbacks_no_raise (cbs : List Callback) (p : Patch)
    (h : ∀ cb ∈ cbs, cb.raises p = false) :
    run_callbacks cbs p = (cbs.map (fun cb => (cb.id, p)), false) := by
  induction cbs with
  | nil => rfl
  | cons cb rest ih =>
    have hcb : cb.raises p = false := h cb (List.mem_cons_self _ _)
    have hrest := ih (fun c hc => h c (List.mem_cons_of_mem _ hc))
    simp [run_callbacks, hcb, hrest]

/-- The first raising callback stops the loop: the callbacks before it
and itself are invoked, the ones after it are not, and the exception
escapes. -/
lemma run_callbacks_first_raise (l1 : List Callback) (cb : Callback) (l2 : List Callback)
    (p : Patch) (h1 : ∀ c ∈ l1, c.raises p = false) (h2 : cb.raises p = true) :
    run_callbacks (l1 ++ cb :: l2) p = (l1.map (fun c => (c.id, p)) ++ [(cb.id, p)], true) := by
  induction l1 with
  | nil => simp [run_callbacks, h2]
  | cons c rest ih =>
    have hc : c.raises p = false := h1 c (List.mem_cons_self _ _)
    have hrest := ih (fun d hd => h1 d (List.mem_cons_of_mem _ hd))
    simp [run_callbacks, hc, hrest]

/-- Availability fan-out with no raising callback reaches every callback
of every channel, in registry order. -/
lemma notify_availability_no_raise (l : List (String × List Callback)) (a : Bool)
    (h : ∀ pr ∈ l, ∀ cb ∈ pr.2, cb.raises { available := some a } = false) :
    notify_availability l a =
      (l.flatMap (fun pr => pr.2.map (fun cb => (cb.id, ({ available := some a } : Patch)))),
       false) := by
  induction l with
  | nil => rfl
  | cons hd tl ih =>
    obtain ⟨ch, cbs⟩ := hd
    have hhd := run_callbacks_no_raise cbs { available := some a }
      (h (ch, cbs) (List.mem_cons_self _ _))
    have htl := ih (fun pr hpr => h pr (List.mem_cons_of_mem _ hpr))
    simp [notify_availability, hhd, htl]

/-- A connected session with a writer really sends the two state
queries for a channel. -/
lemma async_query_channel_state_connected (st : ClientState) (ch : String)
    (hc : st.is_connected = true) (hw : st.has_writer = true) :
    async_query_channel_state st ch =
      [.getCmd PATH_ID_POWER ch, .getCmd PATH_ID_VOLUME ch] := by
  simp [async_query_channel_state, send_command, hc, hw]

/-- Channel ids are recoverable from query commands: the power and the
volume path ids differ, so queries for different surfaces or different
channels are distinct commands. -/
lemma getCmd_ne_of_path (ch ch2 : String) :
    Command.getCmd PATH_ID_POWER ch ≠ Command.getCmd PATH_ID_VOLUME ch2 := by
  intro h
  exact (by decide : PATH_ID_POWER ≠ PATH_ID_VOLUME) ((Command.getCmd.injEq _ _ _ _).mp h).1

lemma count_query_blocks (l : List (String × List Callback)) (ch : String)
    (hnd : (l.map Prod.fst).Nodup) (hmem : ch ∈ l.map Prod.fst) :
    ((l.flatMap fun pr =>
        [Command.getCmd PATH_ID_POWER pr.1, Command.getCmd PATH_ID_VOLUME pr.1]).count
        (Command.getCmd PATH_ID_POWER ch) = 1) ∧
    ((l.flatMap fun pr =>
        [Command.getCmd PATH_ID_POWER pr.1, Command.getCmd PATH_ID_VOLUME pr.1]).count
        (Command.getCmd PATH_ID_VOLUME ch) = 1) := by
  induction l with
  | nil => cases hmem
  | cons hd tl ih =>
    simp only [List.map_cons, List.nodup_cons] at hnd
    have hzero : ∀ pid : String, (∀ pr ∈ tl, Command.getCmd pid ch ∉
        [Command.getCmd PATH_ID_POWER pr.1, Command.getCmd PATH_ID_VOLUME pr.1]) →
        (tl.flatMap fun pr =>
          [Command.getCmd PATH_ID_POWER pr.1, Command.getCmd PATH_ID_VOLUME pr.1]).count
          (Command.getCmd pid ch) = 0 := by
      intro pid hnotin
      rw [List.count_eq_zero]
      intro hin
      rcases List.mem_flatMap.mp hin with ⟨pr, hpr, hin2⟩
      exact hnotin pr hpr hin2
    simp only [List.flatMap_cons, List.count_append]
    rcases List.mem_cons.mp hmem with hchhd | hchtl
    · have hchTl : ch ∉ tl.map Prod.fst := hchhd ▸ hnd.1
      have hPz := hzero PATH_ID_POWER (by
        intro pr hpr hin2
        have hne : pr.1 ≠ ch := fun he => hchTl (he ▸ List.mem_map_of_mem Prod.fst hpr)
        simp only [List.mem_cons, List.not_mem_nil, or_false] at hin2
        rcases hin2 with h | h
        · exact hne ((Command.getCmd.injEq _ _ _ _).mp h.symm).2
        · exact getCmd_ne_of_path ch pr.1 h)
      have hVz := hzero PATH_ID_VOLUME (by
        intro pr hpr hin2
        have hne : pr.1 ≠ ch := fun he => hchTl (he ▸ List.mem_map_of_mem Prod.fst hpr)
        simp only [List.mem_cons, List.not_mem_nil, or_false] at hin2
        rcases hin2 with h | h
        · exact getCmd_ne_of_path pr.1 ch h.symm
        · exact hne ((Command.getCmd.injEq _ _ _ _).mp h.symm).2)
      subst hchhd
      rw [hPz, hVz]
      have hVP : Command.getCmd PATH_ID_VOLUME hd.1 ≠ Command.getCmd PATH_ID_POWER hd.1 :=
        fun h => getCmd_ne_of_path hd.1 hd.1 h.symm
      have hPV : Command.getCmd PATH_ID_POWER hd.1 ≠ Command.getCmd PATH_ID_VOLUME hd.1 :=
        getCmd_ne_of_path hd.1 hd.1
      constructor
      · simp [List.count_cons, hVP]
      · simp [List.count_cons, hPV]
    · have hne : hd.1 ≠ ch := fun he => hnd.1 (he ▸ hchtl)
      have ihc := ih hnd.2 hchtl
      have hblockP : ([Command.getCmd PATH_ID_POWER hd.1,
          Command.getCmd PATH_ID_VOLUME hd.1]).count (Command.getCmd PATH_ID_POWER ch) = 0 := by
        rw [List.count_eq_zero]
        intro hin
        simp only [List.mem_cons, List.not_mem_nil, or_false] at hin
        rcases hin with h | h
        · exact hne ((Command.getCmd.injEq _ _ _ _).mp h).2.symm
        · exact getCmd_ne_of_path ch hd.1 h
      have hblockV : ([Command.getCmd PATH_ID_POWER hd.1,
          Command.getCmd PATH_ID_VOLUME hd.1]).count (Command.getCmd PATH_ID_VOLUME ch) = 0 := by
        rw [List.count_eq_zero]
        intro hin
        simp only [List.mem_cons, List.not_mem_nil, or_false] at hin
        rcases hin with h | h
        · exact getCmd_ne_of_path hd.1 ch h.symm
        · exact hne ((Command.getCmd.injEq _ _ _ _).mp h).2.symm
      rw [hblockP, hblockV]
      omega


/-- The backoff delay after `n` consecutive failures is the doubling
sequence capped at the ceiling. -/
lemma run_failures_delay (n : Nat) :
    (run_failures n).1.reconnect_delay = min (5 * 2 ^ n) 60 := by
  induction n with
  | zero => rfl
  | succ n ih =>
    show min ((run_failures n).1.reconnect_delay * 2) RECONNECT_DELAY_MAX = _
    rw [ih, pow_succ, RECONNECT_DELAY_MAX]
    have h2 : 1 ≤ 2 ^ n := Nat.one_le_two_pow
    generalize 2 ^ n = a at h2 ⊢
    omega

/-- C4: after `n` consecutive failed connection attempts the backoff
delay equals `min (5 * 2 ^ n) 60`, the observed sleeps are
5, 10, 20, ... capped at 60, and any successful handshake resets the
delay to 5. -/
theorem backoff_law (n : Nat) (st : ManagerState) :
    (run_failures n).1.reconnect_delay = min (5 * 2 ^ n) 60 ∧
    (run_failures n).2 = (List.range n).map (fun k => min (5 * 2 ^ k) 60) ∧
    (manager_step st .success).1.reconnect_delay = 5 := by
  refine ⟨run_failures_delay n, ?_, rfl⟩
  induction n with
  | zero => rfl
  | succ n ih =>
    show (run_failures n).2 ++ [(run_failures n).1.reconnect_delay] = _
    rw [ih, run_failures_delay, List.range_succ, List.map_append, List.map_cons, List.map_nil]

/-- C9: while the connected flag is false or no transport writer is
held, `_send_command` writes nothing, leaves the state unchanged and
returns without raising. -/
theorem send_command_noop_when_disconnected (st : ClientState) (cmd : Command)
    (h : st.is_connected = false ∨ st.has_writer = false) :
    send_command st cmd = (st, []) := by
  unfold send_command
  rcases h with h | h <;> simp [h]

/-- Witness for C9 at a concrete disconnected state. -/
theorem send_command_noop_witness :
    send_command ⟨-8000, 0, [], false, false⟩ (.getCmd PATH_ID_POWER "4") =
      (⟨-8000, 0, [], false, false⟩, []) :=
  send_command_noop_when_disconnected _ _ (Or.inl rfl)

/-- C10: after muting while the last-known volume level was `0.0` (and
likewise when no volume was ever known), an unmute request restores
`0.5` instead of the saved volume, because `self._pre_mute_volume or
0.5` tests Python truthiness and `0.0` is falsy. -/
theorem unmute_truthiness_restores_half (pre : Option ℚ) :
    ((async_mute_volume
        ((async_mute_volume { volume_level := some 0, pre_mute_volume := pre } true).1)
        false).2 = [PlayerAction.apiSetVolume (1 / 2)]) ∧
    ((async_mute_volume { volume_level := none, pre_mute_volume := none } false).2 =
      [PlayerAction.apiSetVolume (1 / 2)]) := by
  constructor <;> simp [async_mute_volume, pyOrFloat]

/-- C5: a volume-path line whose parsed numeric value is the mute
sentinel `-13801` yields, for every configured dB bounds pair, a patch
containing `mute = true` and no `volume` field (the patch literal below
leaves `volume := none`). -/
theorem mute_sentinel_yields_mute_patch (st : ClientState)
    (msg addressToken ch field5 : String) (cbs : List Callback)
    (h2 : (pySplit msg).get? 2 = some addressToken)
    (hcmd : (pySplitOn '/' addressToken).get? 1 = some PATH_ID_VOLUME)
    (hch : (pySplitOn '/' addressToken).get? 3 = some ch)
    (hreg : st.callbacks.lookup ch = some cbs)
    (h5 : (pySplit msg).get? 5 = some field5)
    (hv : pyParseInt field5 = some AMP_MUTE_VALUE) :
    parsed_update st msg = some (ch, { mute := some true }) := by
  simp only [parsed_update, h2, hcmd, hch, hreg, h5, hv, Option.isNone_some]
  simp
  decide

theorem mute_sentinel_witness :
    parsed_update
      { min_db_100 := -8000, max_db_100 := 0,
        callbacks := [("4", [{ id := 0, raises := fun _ => false }])],
        is_connected := true, has_writer := true }
      "NOTIFY set MTX:mem_512/60002/0/4/0/0/0 0 0 -13801" =
      some ("4", { mute := some true }) :=
  mute_sentinel_yields_mute_patch
    { min_db_100 := -8000, max_db_100 := 0,
      callbacks := [("4", [{ id := 0, raises := fun _ => false }])],
      is_connected := true, has_writer := true }
    "NOTIFY set MTX:mem_512/60002/0/4/0/0/0 0 0 -13801"
    "MTX:mem_512/60002/0/4/0/0/0" "4" "-13801"
    [{ id := 0, raises := fun _ => false }]
    (by decide) (by decide) (by decide) rfl (by decide) (by decide)

lemma ha_volume_degenerate (a v : Int) : ha_volume_of_value a a v = 1 := by
  simp [ha_volume_of_value]

/-- C8: when `min_db_100 = max_db_100`, parsing a volume-path line with
any non-sentinel value yields `volume = 1.0`, and the conversion is the
constant `1` on the whole degenerate range — the guarded branch keeps
the division from ever being evaluated with a zero divisor. -/
theorem degenerate_range_full_scale (st : ClientState)
    (msg addressToken ch field5 : String) (cbs : List Callback) (value : Int)
    (heq : st.min_db_100 = st.max_db_100)
    (h2 : (pySplit msg).get? 2 = some addressToken)
    (hcmd : (pySplitOn '/' addressToken).get? 1 = some PATH_ID_VOLUME)
    (hch : (pySplitOn '/' addressToken).get? 3 = some ch)
    (hreg : st.callbacks.lookup ch = some cbs)
    (h5 : (pySplit msg).get? 5 = some field5)
    (hv : pyParseInt field5 = some value)
    (hns : value ≠ AMP_MUTE_VALUE) :
    parsed_update st msg = some (ch, { mute := some false, volume := some 1 }) ∧
    (∀ w : Int, ha_volume_of_value st.min_db_100 st.max_db_100 w = 1) := by
  have hdeg : ∀ w : Int, ha_volume_of_value st.min_db_100 st.max_db_100 w = 1 := by
    intro w
    rw [heq]
    exact ha_volume_degenerate _ _
  refine ⟨?_, hdeg⟩
  simp only [parsed_update, h2, hcmd, hch, hreg, h5, hv, Option.isNone_some]
  simp [hns, hdeg]
  decide

theorem degenerate_range_witness :
    parsed_update
      { min_db_100 := 0, max_db_100 := 0,
        callbacks := [("4", [{ id := 0, raises := fun _ => false }])],
        is_connected := true, has_writer := true }
      "OK get MTX:mem_512/60002/0/4/0/0/0 0 0 -200" =
      some ("4", { mute := some false, volume := some 1 }) :=
  (degenerate_range_full_scale
    { min_db_100 := 0, max_db_100 := 0,
      callbacks := [("4", [{ id := 0, raises := fun _ => false }])],
      is_connected := true, has_writer := true }
    "OK get MTX:mem_512/60002/0/4/0/0/0 0 0 -200"
    "MTX:mem_512/60002/0/4/0/0/0" "4" "-200"
    [{ id := 0, raises := fun _ => false }] (-200)
    rfl (by decide) (by decide) (by decide) rfl (by decide) (by decide) (by decide)).1

/-- C6: a line with fewer than 6 whitespace-separated fields, or whose
6th field is not an integer literal, produces no update (no callback is
invoked) and raises nothing to the caller of `_process_message`. -/
theorem malformed_line_no_update (st : ClientState) (msg : String)
    (h : (pySplit msg).length < 6 ∨
      ∀ s, (pySplit msg).get? 5 = some s → pyParseInt s = none) :
    process_message st msg = ([], false) := by
  have h56 : ∀ s, (pySplit msg).get? 5 = some s → pyParseInt s = none := by
    rcases h with h | h
    · intro s hs
      rw [List.get?_eq_none.mpr (by omega)] at hs
      cases hs
    · exact h
  have hparse : parsed_update st msg = none := by
    simp only [parsed_update]
    split
    · rfl
    · split
      · split
        · rfl
        · split
          · rfl
          · split
            · rfl
            · exfalso
              exact absurd (h56 _ (by assumption)) (by simp [*])
      · rfl
  simp [process_message, hparse]

theorem malformed_line_witness :
    process_message ⟨-8000, 0, [], true, true⟩ "OK get MTX:mem_512/60003/0/4/0/0/0" =
      ([], false) :=
  malformed_line_no_update ⟨-8000, 0, [], true, true⟩ "OK get MTX:mem_512/60003/0/4/0/0/0"
    (Or.inl (by decide))


/-- C1 (amended): fan-out calls the callbacks of a channel in
registration order; when no callback raises, every callback is called
exactly once, but an exception raised by one callback stops the loop,
so the callbacks registered after it are NOT called (the original
claim's isolation guarantee does not hold; see the counterexample). -/
theorem fanout_registration_order (cbs l1 l2 : List Callback) (cb : Callback) (p : Patch) :
    ((∀ c ∈ cbs, c.raises p = false) →
      run_callbacks cbs p = (cbs.map (fun c => (c.id, p)), false)) ∧
    ((∀ c ∈ l1, c.raises p = false) → cb.raises p = true →
      run_callbacks (l1 ++ cb :: l2) p = (l1.map (fun c => (c.id, p)) ++ [(cb.id, p)], true)) :=
  ⟨run_callbacks_no_raise cbs p, run_callbacks_first_raise l1 cb l2 p⟩

/-- C1 witness: the amended fan-out law evaluated on concrete callback
lists, with and without a raising callback. -/
theorem fanout_registration_order_witness :
    (run_callbacks [⟨0, fun _ => false⟩, ⟨1, fun _ => false⟩] { power := some true } =
      ([(0, { power := some true }), (1, { power := some true })], false)) ∧
    (run_callbacks [⟨0, fun _ => false⟩, ⟨1, fun _ => true⟩, ⟨2, fun _ => false⟩]
        { power := some true } =
      ([(0, { power := some true }), (1, { power := some true })], true)) := by
  constructor
  · exact (fanout_registration_order [⟨0, fun _ => false⟩, ⟨1, fun _ => false⟩] [] []
      ⟨9, fun _ => false⟩ { power := some true }).1 (by decide)
  · exact (fanout_registration_order [] [⟨0, fun _ => false⟩] [⟨2, fun _ => false⟩]
      ⟨1, fun _ => true⟩ { power := some true }).2 (by decide) rfl

/-- C1 counterexample: with two callbacks registered for channel "4"
and the first raising, the fan-out of a parsed power update invokes
only callback 0 — the second registered callback is never called,
refuting the claim that one callback's exception does not prevent the
remaining callbacks from being called. -/
theorem fanout_exception_counterexample :
    ((process_message
        { min_db_100 := -8000, max_db_100 := 0,
          callbacks := [("4", [{ id := 0, raises := fun _ => true },
                               { id := 1, raises := fun _ => false }])],
          is_connected := true, has_writer := true }
        "NOTIFY set MTX:mem_512/60003/0/4/0/0/0 0 0 1").1.map Prod.fst) = [0] := by decide

/-- C2 counterexample: with bounds `min_db_100 = -8000`,
`max_db_100 = 0` and volume `1/256` (all exactly representable as
doubles, so the source's float computation is exact), the set-volume
operation writes the amplifier value `-7968` — truncation toward zero
of `-7968.75` — whereas `min_db_100 + round(v * (max - min))` is
`-7969`, refuting the claimed rounding to the nearest integer. -/
theorem set_volume_rounding_counterexample :
    ((async_set_volume
        { min_db_100 := -8000, max_db_100 := 0, callbacks := [],
          is_connected := true, has_writer := true } "4" (1 / 256)).2 =
      [Command.setCmd PATH_ID_VOLUME "4" (-7968)]) ∧
    (-8000 : Int) + round ((1 / 256 : ℚ) * ((0 : ℚ) - (-8000 : ℚ))) = -7969 := by
  have hval : set_volume_amp_value (-8000) 0 (256⁻¹) = -7968 := by
    rw [set_volume_amp_value, pyInt]
    norm_num
    rw [Int.ceil_eq_iff]
    norm_num
  constructor
  · simp [async_set_volume, send_command, hval]
  · rw [round_eq]
    norm_num

/-- C2 (amended): for every volume and bounds pair, the amplifier
value written by the set-volume operation equals Python
`int(min_db_100 + v * (max_db_100 - min_db_100))`, i.e. the floor for a
non-negative argument and the ceiling for a negative one (truncation
toward zero), not rounding to the nearest integer. -/
theorem async_set_volume_truncates (st : ClientState) (ch : String) (v : ℚ)
    (hc : st.is_connected = true) (hw : st.has_writer = true) :
    (async_set_volume st ch v).2 =
      [Command.setCmd PATH_ID_VOLUME ch
        (if 0 ≤ (st.min_db_100 : ℚ) + v * ((st.max_db_100 : ℚ) - (st.min_db_100 : ℚ))
         then ⌊(st.min_db_100 : ℚ) + v * ((st.max_db_100 : ℚ) - (st.min_db_100 : ℚ))⌋
         else ⌈(st.min_db_100 : ℚ) + v * ((st.max_db_100 : ℚ) - (st.min_db_100 : ℚ))⌉)] := by
  have hcast : ((st.max_db_100 - st.min_db_100 : Int) : ℚ) =
      (st.max_db_100 : ℚ) - (st.min_db_100 : ℚ) := by push_cast; ring
  simp [async_set_volume, send_command, hc, hw, set_volume_amp_value, pyInt, hcast]

/-- C2 amended witness: the truncation law evaluated at a concrete
connected state. -/
theorem async_set_volume_truncates_witness :
    (async_set_volume
        { min_db_100 := -8000, max_db_100 := 0, callbacks := [],
          is_connected := true, has_writer := true } "4" (1 / 2)).2 =
      [Command.setCmd PATH_ID_VOLUME "4"
        (if 0 ≤ (((-8000 : Int) : ℚ)) + (1 / 2) * (((0 : Int) : ℚ) - (((-8000 : Int) : ℚ)))
         then ⌊(((-8000 : Int) : ℚ)) + (1 / 2) * (((0 : Int) : ℚ) - (((-8000 : Int) : ℚ)))⌋
         else ⌈(((-8000 : Int) : ℚ)) + (1 / 2) * (((0 : Int) : ℚ) - (((-8000 : Int) : ℚ)))⌉)] :=
  async_set_volume_truncates
    { min_db_100 := -8000, max_db_100 := 0, callbacks := [],
      is_connected := true, has_writer := true } "4" (1 / 2) rfl rfl

/-- C7: when the stripped handshake reply equals
`OK devstatus runmode "normal"` verbatim, the connected flag becomes
true, an `available = true` patch is delivered to every callback of
every registered channel (given none of them raises), and — channel
keys being unique as in a Python dict — exactly one power query and one
volume query are sent per registered channel. -/
theorem handshake_success_effects (st : ClientState) (resp : String)
    (hresp : resp = HANDSHAKE_RESPONSE)
    (hw : st.has_writer = true)
    (hnr : ∀ pr ∈ st.callbacks, ∀ cb ∈ pr.2, cb.raises { available := some true } = false)
    (hnd : (st.callbacks.map Prod.fst).Nodup) :
    (connect_handshake st resp).1.is_connected = true ∧
    (connect_handshake st resp).2.1 =
      st.callbacks.flatMap
        (fun pr => pr.2.map (fun cb => (cb.id, ({ available := some true } : Patch)))) ∧
    ∀ ch ∈ st.callbacks.map Prod.fst,
      (connect_handshake st resp).2.2.count (Command.getCmd PATH_ID_POWER ch) = 1 ∧
      (connect_handshake st resp).2.2.count (Command.getCmd PATH_ID_VOLUME ch) = 1 := by
  subst hresp
  have hstrip : pyStrip HANDSHAKE_RESPONSE = HANDSHAKE_RESPONSE := by decide
  rw [connect_handshake, if_pos hstrip]
  have hq : ∀ chx : String,
      async_query_channel_state { st with is_connected := true } chx =
        [Command.getCmd PATH_ID_POWER chx, Command.getCmd PATH_ID_VOLUME chx] :=
    fun chx => async_query_channel_state_connected _ chx rfl hw
  refine ⟨rfl, ?_, ?_⟩
  · show (notify_availability st.callbacks true).1 = _
    rw [notify_availability_no_raise st.callbacks true hnr]
  · intro ch hch
    show ((st.callbacks.flatMap fun pr =>
        async_query_channel_state { st with is_connected := true } pr.1).count
        (Command.getCmd PATH_ID_POWER ch) = 1) ∧ _
    simp only [hq]
    exact count_query_blocks st.callbacks ch hnd hch

/-- C7 witness: the handshake effects evaluated on a concrete session
with two registered channels. -/
theorem handshake_success_witness :
    ((connect_handshake
        { min_db_100 := -8000, max_db_100 := 0,
          callbacks := [("4", [{ id := 1, raises := fun _ => false }]),
                        ("6", [{ id := 2, raises := fun _ => false }])],
          is_connected := false, has_writer := true }
        "OK devstatus runmode \"normal\"").1.is_connected = true) ∧
    ((connect_handshake
        { min_db_100 := -8000, max_db_100 := 0,
          callbacks := [("4", [{ id := 1, raises := fun _ => false }]),
                        ("6", [{ id := 2, raises := fun _ => false }])],
          is_connected := false, has_writer := true }
        "OK devstatus runmode \"normal\"").2.1 =
      [(1, { available := some true }), (2, { available := some true })]) ∧
    ((connect_handshake
        { min_db_100 := -8000, max_db_100 := 0,
          callbacks := [("4", [{ id := 1, raises := fun _ => false }]),
                        ("6", [{ id := 2, raises := fun _ => false }])],
          is_connected := false, has_writer := true }
        "OK devstatus runmode \"normal\"").2.2.count (Command.getCmd PATH_ID_POWER "6") = 1) ∧
    ((connect_handshake
        { min_db_100 := -8000, max_db_100 := 0,
          callbacks := [("4", [{ id := 1, raises := fun _ => false }]),
                        ("6", [{ id := 2, raises := fun _ => false }])],
          is_connected := false, has_writer := true }
        "OK devstatus runmode \"normal\"").2.2.count (Command.getCmd PATH_ID_VOLUME "6") = 1) := by
  obtain ⟨ha, hb, hc⟩ := handshake_success_effects
    { min_db_100 := -8000, max_db_100 := 0,
      callbacks := [("4", [{ id := 1, raises := fun _ => false }]),
                    ("6", [{ id := 2, raises := fun _ => false }])],
      is_connected := false, has_writer := true }
    "OK devstatus runmode \"normal\"" rfl rfl (by decide) (by decide)
  exact ⟨ha, hb.trans (by decide), (hc "6" (by decide)).1, (hc "6" (by decide)).2⟩


/-- C3: for every volume `v` in `[0, 1]` and bounds with
`min_db_100 < max_db_100`, converting `v` to an amplifier value and
converting that value back through the parser's clamped conversion
lands within one amplifier unit of `v`:
`|result - v| <= 1 / (max_db_100 - min_db_100)`. -/
theorem volume_round_trip (min_db_100 max_db_100 : Int) (v : ℚ)
    (hlt : min_db_100 < max_db_100) (h0 : 0 ≤ v) (h1 : v ≤ 1) :
    |ha_volume_of_value min_db_100 max_db_100 (set_volume_amp_value min_db_100 max_db_100 v) -
        v| ≤ 1 / ((max_db_100 : ℚ) - (min_db_100 : ℚ)) := by
  have hcast : ((max_db_100 - min_db_100 : Int) : ℚ) =
      (max_db_100 : ℚ) - (min_db_100 : ℚ) := by push_cast; ring
  have hRpos : (0 : ℚ) < (max_db_100 : ℚ) - (min_db_100 : ℚ) := by
    rw [sub_pos]
    exact_mod_cast hlt
  have hRne : (max_db_100 - min_db_100 : Int) ≠ 0 := by omega
  simp only [ha_volume_of_value, set_volume_amp_value, hcast, if_pos hRne]
  set R : ℚ := (max_db_100 : ℚ) - (min_db_100 : ℚ) with hRdef
  set x : ℚ := (min_db_100 : ℚ) + v * R with hxdef
  set a : Int := pyInt x with hadef
  have hxlo : (min_db_100 : ℚ) ≤ x := by
    have hvR : 0 ≤ v * R := mul_nonneg h0 hRpos.le
    rw [hxdef]
    linarith
  have hxhi : x ≤ (max_db_100 : ℚ) := by
    have h2 : 0 ≤ (1 - v) * R := mul_nonneg (by linarith) hRpos.le
    have h3 : (1 - v) * R = R - v * R := by ring
    have h4 : (max_db_100 : ℚ) = (min_db_100 : ℚ) + R := by rw [hRdef]; ring
    rw [hxdef, h4]
    linarith
  have halo : min_db_100 ≤ a := le_trans (Int.le_floor.mpr hxlo) (floor_le_pyInt x)
  have hahi : a ≤ max_db_100 := le_trans (pyInt_le_ceil x) (Int.ceil_le.mpr hxhi)
  have haloQ : (min_db_100 : ℚ) ≤ (a : ℚ) := by exact_mod_cast halo
  have hahiQ : (a : ℚ) ≤ (max_db_100 : ℚ) := by exact_mod_cast hahi
  have hq0 : 0 ≤ ((a : ℚ) - (min_db_100 : ℚ)) / R := by
    apply div_nonneg _ hRpos.le
    linarith
  have hq1 : ((a : ℚ) - (min_db_100 : ℚ)) / R ≤ 1 := by
    rw [div_le_one hRpos]
    have : (max_db_100 : ℚ) = (min_db_100 : ℚ) + R := by rw [hRdef]; ring
    linarith [this ▸ hahiQ]
  rw [min_eq_right hq1, max_eq_right hq0]
  have hdiff : ((a : ℚ) - (min_db_100 : ℚ)) / R - v = ((a : ℚ) - x) / R := by
    rw [hxdef]
    field_simp
    ring
  rw [hdiff, abs_div, abs_of_pos hRpos]
  exact (div_le_div_iff_of_pos_right hRpos).mpr (abs_pyInt_sub_le x)

/-- C3 witness: the round-trip bound evaluated at `v = 1/2` with
bounds `-8000 .. 0`. -/
theorem volume_round_trip_witness :
    |ha_volume_of_value (-8000) 0 (set_volume_amp_value (-8000) 0 (1 / 2)) - 1 / 2| ≤
      1 / (((0 : Int) : ℚ) - (((-8000 : Int)) : ℚ)) :=
  volume_round_trip (-8000) 0 (1 / 2) (by norm_num) (by norm_num) (by norm_num)

end XMV
